import Mathlib

/-!
Verification of the finance-dashboard repository's error handling, retry,
caching and field-typing logic.

The development shallowly embeds the TypeScript sources:
* `src/services/apiErrorHandler.ts` (`ApiErrorHandler.parseError`,
  `ApiErrorHandler.executeWithRetry`),
* the `ApiCache` class and `cachedFetch` from the API-service module,
* `getFieldType` / `isDateString` from the field-exploration module.

JavaScript runtime values are modelled by the inductive `JSValue`
(no floats appear in the verified paths; JS numbers are modelled as `Int`).
A JS `TypeError` (property access on `null`/`undefined`, or calling a string
method on a non-string) is modelled by `Except Unit`, `.error ()` standing
for the thrown `TypeError`.
-/

namespace FinDash

/-- A JavaScript runtime value, as far as the verified code observes it.
Numbers are modelled as integers: every numeric literal in the verified
code paths is an integer. Objects are ordered key/value lists
(JS objects preserve insertion order; keys are unique). -/
inductive JSValue where
  | null
  | undefined
  | bool (b : Bool)
  | num (n : Int)
  | str (s : String)
  | obj (fields : List (String × JSValue))

/-- JS truthiness. `0`, `""`, `null`, `undefined`, `false` are falsy;
every object is truthy. (`NaN` does not arise in the modelled paths.) -/
def truthy : JSValue → Bool
  | .null => false
  | .undefined => false
  | .bool b => b
  | .num n => decide (n ≠ 0)
  | .str s => decide (s ≠ "")
  | .obj _ => true

/-- `typeof v === 'object'` for the values of the model that are objects
(`null` is handled separately by truthiness guards in the source). -/
def isObjV : JSValue → Bool
  | .obj _ => true
  | _ => false

def isNullish : JSValue → Bool
  | .null => true
  | .undefined => true
  | _ => false

/-- Property access `v[k]` for a receiver that is NOT `null`/`undefined`
(callers check this first; on a nullish receiver JS throws a `TypeError`,
which callers model with `Except`). A missing key and a primitive receiver
both yield `undefined`. -/
def getPropD : JSValue → String → JSValue
  | .obj fields, k => ((fields.find? (fun p => p.1 = k)).map (fun p => p.2)).getD .undefined
  | _, _ => .undefined

/-- Does character list `l` start with `p`? -/
def leadsWith : List Char → List Char → Bool
  | [], _ => true
  | _ :: _, [] => false
  | a :: as, b :: bs => a = b && leadsWith as bs

/-- Does `l` contain `n` as a contiguous run? -/
def hasSub (n : List Char) : List Char → Bool
  | [] => n.isEmpty
  | c :: rest => leadsWith n (c :: rest) || hasSub n rest

/-- `s.includes(needle)` on strings. -/
def strContains (s needle : String) : Bool :=
  hasSub needle.toList s.toList

/-- `v.includes(needle)`: a `TypeError` unless `v` is a string
(the modelled code never calls it on arrays). -/
def jsIncludes (v : JSValue) (needle : String) : Except Unit Bool :=
  match v with
  | .str s => .ok (strContains s needle)
  | _ => .error ()

/-- `v === n` for a numeric literal `n` (strict equality). -/
def jsEqNum (v : JSValue) (n : Int) : Bool :=
  match v with
  | .num m => decide (m = n)
  | _ => false

/-- `v === s` for a string literal `s` (strict equality). -/
def jsEqStr (v : JSValue) (s : String) : Bool :=
  match v with
  | .str t => decide (t = s)
  | _ => false

/-- String coercion as used by template literals and `parseInt`. -/
def jsToString : JSValue → String
  | .null => "null"
  | .undefined => "undefined"
  | .bool b => if b then "true" else "false"
  | .num n => toString n
  | .str s => s
  | .obj _ => "[object Object]"

def isDigit (c : Char) : Bool := decide ('0' ≤ c) && decide (c ≤ '9')

/-- `s.trim()`: strip whitespace from both ends (list-based so that it
evaluates inside the kernel). -/
def jsTrim (s : String) : String :=
  ⟨((s.toList.dropWhile Char.isWhitespace).reverse.dropWhile Char.isWhitespace).reverse⟩

def digitsToNat : List Char → Nat → Nat
  | [], acc => acc
  | c :: cs, acc => digitsToNat cs (acc * 10 + (c.toNat - '0'.toNat))

/-- `parseInt(s)` (base 10): skip leading whitespace, optional sign, then the
longest run of leading decimal digits; `none` models `NaN`. -/
def parseIntStr (s : String) : Option Int :=
  let cs := s.toList.dropWhile Char.isWhitespace
  let (neg, cs) : Bool × List Char :=
    match cs with
    | '-' :: rest => (true, rest)
    | '+' :: rest => (false, rest)
    | _ => (false, cs)
  let digits := cs.takeWhile isDigit
  if digits.isEmpty then none
  else
    let n : Int := Int.ofNat (digitsToNat digits 0)
    some (if neg then -n else n)

/-- `parseInt(v)`: JS coerces the argument to a string first. -/
def jsParseIntV (v : JSValue) : Option Int :=
  parseIntStr (jsToString v)

/-- `status >= 500` under JS coercion. Only numeric statuses are exercised by
the verified paths; strings coerce through `parseIntStr` (fractional string
statuses do not arise), the remaining primitives compare as in JS. -/
def jsGe500 : JSValue → Bool
  | .num n => decide (500 ≤ n)
  | .str s => match parseIntStr (jsTrim s) with
    | some n => decide (500 ≤ n)
    | none => false
  | _ => false

/-- The `type` discriminant of `ApiError`. -/
inductive ErrorType where
  | rate_limit
  | network
  | auth
  | server
  | timeout
  | unknown
  deriving DecidableEq

/-- `ApiError` from `apiErrorHandler.ts`. `retryAfter := none` models the
field being absent (or a `NaN` `parseInt` result); both are falsy wherever
the code tests the field. `statusCode` keeps whatever value `response.status`
held. -/
structure ApiError where
  type : ErrorType
  message : String
  retryAfter : Option Int := none
  canRetry : Bool
  statusCode : Option JSValue := none
  originalError : JSValue

/-- Render `retryAfter` inside a template literal. -/
def optIntText : Option Int → String
  | some n => toString n
  | none => "NaN"

/-- The guarded marker test `x && x.includes(needle)` of the provider
checks: skipped (false) on a falsy `x`, a `TypeError` on a truthy
non-string `x`. -/
def chkStep (v : JSValue) (needle : String) : Except Unit Bool :=
  if truthy v then jsIncludes v needle else .ok false

/-- The Alpha-Vantage-specific section of `parseError`
(`apiErrorHandler.ts` lines 31-66): runs when `error.response` is truthy,
with `status = response.status` and `data = response.data`.
`.ok (some e)` = one of the three provider branches returned `e`;
`.ok none` = fall through to the status-code switch;
`.error ()` = a `TypeError` (`.includes` on a truthy non-string). -/
def alphaVantageCheck (error status data : JSValue) : Except Unit (Option ApiError) :=
  if truthy data && isObjV data then
    let note := getPropD data "Note"
    match chkStep note "API call frequency" with
    | .error _ => .error ()
    | .ok true => .ok (some
        { type := .rate_limit,
          message := "API rate limit exceeded. Please wait before making another request.",
          retryAfter := some 60, canRetry := true,
          statusCode := some status, originalError := error })
    | .ok false =>
      match chkStep note "premium" with
      | .error _ => .error ()
      | .ok true => .ok (some
          { type := .auth,
            message := "This feature requires a premium API key.",
            canRetry := false, statusCode := some status, originalError := error })
      | .ok false =>
        let em := getPropD data "Error Message"
        match chkStep em "Invalid API call" with
        | .error _ => .error ()
        | .ok true => .ok (some
            { type := .auth,
              message := "Invalid API key or endpoint. Please check your configuration.",
              canRetry := false, statusCode := some status, originalError := error })
        | .ok false => .ok none
  else .ok none

/-- `ApiErrorHandler.parseError`. `.error ()` models the JS `TypeError`
raised by the function itself (property access on a nullish receiver, or a
string method called on a truthy non-string). -/
def parseError (error : JSValue) : Except Unit ApiError :=
  match error with
  | .null => .error ()
  | .undefined => .error ()
  | _ =>
    let resp := getPropD error "response"
    if truthy resp then
      let status := getPropD resp "status"
      let data := getPropD resp "data"
      match alphaVantageCheck error status data with
      | .error _ => .error ()
      | .ok (some r) => .ok r
      | .ok none =>
        if jsEqNum status 429 then
          let headers := getPropD resp "headers"
          if isNullish headers then .error ()
          else
            let raRaw := getPropD headers "retry-after"
            let retryAfter : Option Int :=
              if truthy raRaw then jsParseIntV raRaw else some 60
            .ok { type := .rate_limit,
                  message := "Rate limit exceeded. Please wait " ++ optIntText retryAfter
                    ++ " seconds before retrying.",
                  retryAfter := retryAfter, canRetry := true,
                  statusCode := some status, originalError := error }
        else if jsEqNum status 401 || jsEqNum status 403 then
          .ok { type := .auth,
                message := "Authentication failed. Please check your API key.",
                canRetry := false, statusCode := some status, originalError := error }
        else if jsEqNum status 500 || jsEqNum status 502
            || jsEqNum status 503 || jsEqNum status 504 then
          .ok { type := .server,
                message := "Server error. The API service is temporarily unavailable.",
                canRetry := true, statusCode := some status, originalError := error }
        else
          .ok { type := .unknown,
                message := "API request failed with status " ++ jsToString status,
                canRetry := jsGe500 status,
                statusCode := some status, originalError := error }
    else
      let code := getPropD error "code"
      if jsEqStr code "ENOTFOUND" || jsEqStr code "ECONNREFUSED" then
        .ok { type := .network,
              message := "Network error. Please check your internet connection.",
              canRetry := true, originalError := error }
      else
        let timeoutChk : Except Unit Bool :=
          if jsEqStr code "ECONNABORTED" then .ok true
          else
            match getPropD error "message" with
            | .null => .ok false
            | .undefined => .ok false
            | .str s => .ok (strContains s "timeout")
            | _ => .error ()
        match timeoutChk with
        | .error _ => .error ()
        | .ok true =>
          .ok { type := .timeout,
                message := "Request timed out. The API is taking too long to respond.",
                canRetry := true, originalError := error }
        | .ok false =>
          let msg := getPropD error "message"
          .ok { type := .unknown,
                message := if truthy msg then jsToString msg else "An unknown error occurred",
                canRetry := false, originalError := error }

/-- `RetryConfig` from `apiErrorHandler.ts`. `maxRetries` is the loop bound
of `executeWithRetry`; delays are milliseconds. -/
structure RetryConfig where
  maxRetries : Nat
  baseDelay : Int
  maxDelay : Int
  backoffMultiplier : Int

/-- `ApiErrorHandler.defaultRetryConfig`. -/
def defaultRetryConfig : RetryConfig :=
  { maxRetries := 3, baseDelay := 1000, maxDelay := 30000, backoffMultiplier := 2 }

/-- Truthiness of `lastError.retryAfter` (absent/NaN is `none`, and `0` is
falsy too). -/
def retryAfterTruthy (e : ApiError) : Bool :=
  match e.retryAfter with
  | some n => decide (n ≠ 0)
  | none => false

/-- The pre-jitter retry delay computed inside `executeWithRetry`
(lines 163-172 of `apiErrorHandler.ts`): exponential backoff, raised to the
rate-limit `retryAfter` when that is truthy, then capped at `maxDelay`.
The random jitter added afterwards is outside the model; no claim is about it. -/
def computeDelay (cfg : RetryConfig) (err : ApiError) (attempt : Nat) : Int :=
  let delay := cfg.baseDelay * cfg.backoffMultiplier ^ attempt
  let delay :=
    if err.type = ErrorType.rate_limit && retryAfterTruthy err then
      max delay ((err.retryAfter.getD 0) * 1000)
    else delay
  min delay cfg.maxDelay

/-- How a run of `executeWithRetry` ends. `crashed` models `parseError`
itself throwing a `TypeError`, which then escapes `executeWithRetry`
unclassified. -/
inductive RetryOutcome (α : Type) where
  | success (v : α)
  | failure (e : ApiError)
  | crashed

def RetryOutcome.isCrashed : RetryOutcome α → Bool
  | .crashed => true
  | _ => false

/-- Observable trace of one `executeWithRetry` run: the outcome, how many
times `apiCall` was invoked, and the pre-jitter delays slept between
attempts. -/
structure RetryTrace (α : Type) where
  outcome : RetryOutcome α
  invocations : Nat
  delays : List Int

/-- The loop body of `executeWithRetry`, one recursive step per iteration of
`for (attempt = 0; attempt <= maxRetries; attempt++)`. The `call` argument
maps the attempt number to that invocation's result (`.error e` = the JS
call rejected with `e`). `fuel` counts the loop iterations still allowed;
the `fuel = 0` case is unreachable from `executeWithRetry` because the loop
always returns or throws at `attempt = maxRetries`. -/
def executeWithRetryAux (call : Nat → Except JSValue α) (cfg : RetryConfig) :
    Nat → Nat → RetryTrace α
  | _, 0 => { outcome := .crashed, invocations := 0, delays := [] }
  | attempt, fuel + 1 =>
    match call attempt with
    | .ok v => { outcome := .success v, invocations := 1, delays := [] }
    | .error e =>
      match parseError e with
      | .error _ => { outcome := .crashed, invocations := 1, delays := [] }
      | .ok lastError =>
        if !lastError.canRetry || attempt = cfg.maxRetries then
          { outcome := .failure lastError, invocations := 1, delays := [] }
        else
          let delay := computeDelay cfg lastError attempt
          let rest := executeWithRetryAux call cfg (attempt + 1) fuel
          { outcome := rest.outcome, invocations := rest.invocations + 1,
            delays := delay :: rest.delays }

/-- `ApiErrorHandler.executeWithRetry` with a fully merged config. -/
def executeWithRetry (call : Nat → Except JSValue α) (cfg : RetryConfig) : RetryTrace α :=
  executeWithRetryAux call cfg 0 (cfg.maxRetries + 1)

/-- The axios-shaped error object that `fetchWithErrorHandling` throws for a
non-`ok` HTTP response: `{ response: { status, data, headers }, message }`. -/
def mkHttpError (status data headers : JSValue) : JSValue :=
  .obj [("response", .obj [("status", status), ("data", data), ("headers", headers)]),
        ("message", .str ("HTTP error! status: " ++ jsToString status))]

/-! ### The `ApiCache` class and `cachedFetch` -/

/-- One cache slot (`CacheEntry` in the source): the payload, the
`Date.now()` at store time, and the absolute expiry time. Times are
millisecond clock readings (`Nat`). -/
structure CacheEntry (α : Type) where
  data : α
  timestamp : Nat
  expiresAt : Nat
  deriving DecidableEq

/-- The constructor-merged `CacheConfig` (the `cleanupInterval` only
schedules the background sweep and plays no role in any claim). -/
structure CacheConfig where
  defaultTTL : Nat
  maxSize : Nat
  deriving DecidableEq

/-- `ApiCache` state: the backing `Map` as an insertion-ordered list with
unique keys, plus the config. -/
structure CacheState (α : Type) where
  entries : List (String × CacheEntry α)
  config : CacheConfig

/-- `Map.get`-style lookup (keys are unique, so first match is the match). -/
def lookupKey {β : Type} : List (String × β) → String → Option β
  | [], _ => none
  | (k₁, v) :: rest, k => if k₁ = k then some v else lookupKey rest k

/-- `Map.set`: replace in place when the key exists (keeping its position,
as JS `Map` does), otherwise append. -/
def mapSet {β : Type} : List (String × β) → String → β → List (String × β)
  | [], k, v => [(k, v)]
  | (k₁, v₁) :: rest, k, v =>
    if k₁ = k then (k, v) :: rest else (k₁, v₁) :: mapSet rest k v

/-- `Map.delete` (at most one entry carries the key). -/
def mapDelete {β : Type} : List (String × β) → String → List (String × β)
  | [], _ => []
  | (k₁, v₁) :: rest, k => if k₁ = k then rest else (k₁, v₁) :: mapDelete rest k

/-- `JSON.stringify` on a flat string-to-string record, for cache keys.
(Escaping inside keys/values is immaterial to every claim; `\x7b`/`\x7d`
are the literal braces.) -/
def stringifyHeaders (hs : List (String × String)) : String :=
  "\x7b" ++ String.intercalate ","
    (hs.map (fun p => "\"" ++ p.1 ++ "\":\"" ++ p.2 ++ "\"")) ++ "\x7d"

/-- `ApiCache.generateKey`: `` `${url}:${headersStr}` `` where `headersStr`
is `JSON.stringify(headers)` when a headers object was passed and `''`
otherwise. -/
def ApiCache.generateKey (url : String) (headers : Option (List (String × String))) : String :=
  url ++ ":" ++ (match headers with
    | some hs => stringifyHeaders hs
    | none => "")

/-- `ApiCache.cleanup`: delete every entry with `expiresAt <= now`; if the
map still holds more than `maxSize` entries, sort the survivors by
`timestamp` ascending (JS `Array.sort` is stable, as is `insertionSort`)
and delete the keys of the first `size - maxSize` of them. -/
def ApiCache.cleanup (st : CacheState α) (now : Nat) : CacheState α :=
  let kept := st.entries.filter (fun kv => !decide (kv.2.expiresAt ≤ now))
  let entries :=
    if st.config.maxSize < kept.length then
      let sorted := kept.insertionSort (fun a b => a.2.timestamp ≤ b.2.timestamp)
      let toRemove := sorted.take (kept.length - st.config.maxSize)
      let removedKeys : List String := toRemove.map (fun kv => kv.1)
      kept.filter (fun kv => !decide (kv.1 ∈ removedKeys))
    else kept
  { st with entries := entries }

/-- `ApiCache.get`: a present, unexpired entry yields its payload; an entry
found expired (`expiresAt <= now`) is deleted on the spot and the lookup
reports absence. The `Option` result models the source's `data`-or-`null`
return (the source signals absence with `null`). -/
def ApiCache.get (st : CacheState α) (url : String)
    (headers : Option (List (String × String))) (now : Nat) :
    Option α × CacheState α :=
  let key := ApiCache.generateKey url headers
  match lookupKey st.entries key with
  | none => (none, st)
  | some entry =>
    if entry.expiresAt ≤ now then
      (none, { st with entries := mapDelete st.entries key })
    else
      (some entry.data, st)

/-- `ttl || this.config.defaultTTL`: a falsy `ttl` (absent or `0`) falls
back to the configured default. -/
def ttlOrDefault (ttl : Option Nat) (defaultTTL : Nat) : Nat :=
  match ttl with
  | some t => if t = 0 then defaultTTL else t
  | none => defaultTTL

/-- `ApiCache.set`: store under the derived key with
`expiresAt = now + (ttl || defaultTTL)`, then run `cleanup` when the size
exceeds `maxSize * 1.2` (stated exactly as `5 * size > 6 * maxSize`; for
the deployed `maxSize = 50` this matches the float comparison). -/
def ApiCache.set (st : CacheState α) (url : String) (data : α)
    (headers : Option (List (String × String))) (ttl : Option Nat) (now : Nat) :
    CacheState α :=
  let key := ApiCache.generateKey url headers
  let ttlEff := ttlOrDefault ttl st.config.defaultTTL
  let entry : CacheEntry α := { data := data, timestamp := now, expiresAt := now + ttlEff }
  let entries := mapSet st.entries key entry
  let st' : CacheState α := { st with entries := entries }
  if 6 * st.config.maxSize < 5 * entries.length then ApiCache.cleanup st' now else st'

/-- The config of the singleton `apiCache` instance. -/
def apiCacheConfig : CacheConfig := { defaultTTL := 300000, maxSize := 50 }

/-- `cachedFetch`. The network is abstracted by `fetched`, the payload that
a (successful) `fetchWithErrorHandling` run would produce; the returned
`Nat` counts how many times `fetchWithErrorHandling` was invoked. Returns
(result, new cache state, transport invocations). Mirrors the source:
non-GET or `skipCache` bypasses the cache entirely; otherwise a TRUTHY
cached value is returned as a hit, and anything else (including a cached
falsy payload — the source tests `if (cachedData)` on the `data`-or-`null`
return of `get`) triggers a fetch followed by `set`. -/
def cachedFetch (st : CacheState JSValue) (url : String)
    (method : Option String) (headers : Option (List (String × String)))
    (ttl : Option Nat) (skipCache : Bool) (fetched : JSValue) (now : Nat) :
    JSValue × CacheState JSValue × Nat :=
  let hdrs := headers.getD []
  let m := match method with
    | some s => if s.toUpper = "" then "GET" else s.toUpper
    | none => "GET"
  if m ≠ "GET" || skipCache then
    (fetched, st, 1)
  else
    let (cached, st₁) := ApiCache.get st url (some hdrs) now
    let cachedData := cached.getD JSValue.null
    if truthy cachedData then
      (cachedData, st₁, 0)
    else
      let st₂ := ApiCache.set st₁ url fetched (some hdrs) ttl now
      (fetched, st₂, 1)

/-! ### Field type inference (`getFieldType` / `isDateString`) -/

inductive FieldType where
  | string
  | number
  | boolean
  | date
  deriving DecidableEq

/-- Consume exactly `n` decimal digits, returning the rest. -/
def digitRun : Nat → List Char → Option (List Char)
  | 0, cs => some cs
  | _ + 1, [] => none
  | n + 1, c :: cs => if isDigit c then digitRun n cs else none

/-- Match a sequence of digit-runs (`.inl n` = `\d{n}`) and literal
characters against a prefix of `cs`. -/
def matchRun : List (Nat ⊕ Char) → List Char → Bool
  | [], _ => true
  | .inl n :: rest, cs =>
    match digitRun n cs with
    | some cs' => matchRun rest cs'
    | none => false
  | .inr lit :: rest, c :: cs => decide (c = lit) && matchRun rest cs
  | .inr _ :: _, [] => false

/-- `^\d{4}-\d{2}-\d{2}`, `^\d{2}\/\d{2}\/\d{4}` and
`^\d{4}-\d{2}-\d{2}T\d{2}:\d{2}:\d{2}` as prefix tests on the char list. -/
def datePatternMatch (value : String) : Bool :=
  let cs := value.toList
  matchRun [.inl 4, .inr '-', .inl 2, .inr '-', .inl 2] cs
  || matchRun [.inl 2, .inr '/', .inl 2, .inr '/', .inl 4] cs
  || matchRun [.inl 4, .inr '-', .inl 2, .inr '-', .inl 2, .inr 'T',
      .inl 2, .inr ':', .inl 2, .inr ':', .inl 2] cs

/-- `isDateString`: one of the three date regexes matches AND
`Date.parse(value)` is not `NaN`. `Date.parse` is host behaviour outside
the repository, passed in as the oracle `dateParseOk`; thanks to JS
short-circuiting it is only consulted when a pattern matched. -/
def isDateString (dateParseOk : String → Bool) (value : String) : Bool :=
  datePatternMatch value && dateParseOk value

/-- The smallest positive real that rounds to `+Infinity` in IEEE-754
binary64: the midpoint `2^1024 - 2^970` above the largest finite double
`2^1024 - 2^971` (ties-to-even rounds that midpoint up, to the
even-mantissa `2^1024`, i.e. to overflow). -/
def binary64OverflowBound : Nat := 2 ^ 1024 - 2 ^ 970

/-- The exponent suffix of a JS decimal literal: `e`/`E` already consumed;
an optional sign and at least one digit, else the exponent is not part of
the parse (`parseFloat("1e") = 1`). -/
def parseExpPart (cs : List Char) : Int :=
  let (neg, cs) : Bool × List Char :=
    match cs with
    | '-' :: rest => (true, rest)
    | '+' :: rest => (false, rest)
    | _ => (false, cs)
  let ds := cs.takeWhile isDigit
  if ds.isEmpty then 0
  else
    let n : Int := Int.ofNat (digitsToNat ds 0)
    if neg then -n else n

/-- Does the exact rational `mantissa * 10^e` stay strictly below the
binary64 overflow bound (so that it rounds to a finite double)? -/
def decimalBelowOverflow (mantissa : Nat) (e : Int) : Bool :=
  if 0 ≤ e then
    decide (mantissa * 10 ^ e.toNat < binary64OverflowBound)
  else
    decide (mantissa < binary64OverflowBound * 10 ^ (-e).toNat)

/-- Is `parseFloat(value)` a finite number, i.e.
`!isNaN(parseFloat(value)) && isFinite(parseFloat(value))`? `parseFloat`
skips leading whitespace and an optional sign, then parses the longest
decimal literal (`digits [. digits] | . digits`, optional `e`/`E`
exponent) - no digits at all is `NaN` - or the literal `Infinity`. The
result is non-finite for `NaN`, for `Infinity`, and for a parsed decimal
whose exact magnitude `mantissa * 10^exponent` reaches the binary64
overflow bound (e.g. a 309-nines numeral), which `parseFloat` rounds to
`Infinity`. The sign never affects finiteness. -/
def parseFloatFinite (value : String) : Bool :=
  let cs := value.toList.dropWhile Char.isWhitespace
  let cs := match cs with
    | '-' :: rest => rest
    | '+' :: rest => rest
    | _ => cs
  if leadsWith "Infinity".toList cs then false
  else
    let intDigits := cs.takeWhile isDigit
    let rest := cs.dropWhile isDigit
    let (fracDigits, rest₂) : List Char × List Char :=
      match rest with
      | '.' :: r => (r.takeWhile isDigit, r.dropWhile isDigit)
      | _ => ([], rest)
    if intDigits.isEmpty && fracDigits.isEmpty then false
    else
      let mantissa := digitsToNat (intDigits ++ fracDigits) 0
      let expPart : Int :=
        match rest₂ with
        | 'e' :: r => parseExpPart r
        | 'E' :: r => parseExpPart r
        | _ => 0
      decimalBelowOverflow mantissa (expPart - fracDigits.length)

/-- `value.replace(/[,\s$%]/g, '')`. -/
def stripFormatting (value : String) : String :=
  ⟨value.toList.filter (fun c =>
    !(c = ',' || c = '$' || c = '%' || c.isWhitespace))⟩

/-- `/^-?\d*\.?\d+$/.test(s)`: optional minus, then digits, with at most one
dot and at least one digit after it (equivalently: a nonempty digit run, or
`digits* '.' digits+`). -/
def numericShape (s : String) : Bool :=
  let cs := match s.toList with
    | '-' :: rest => rest
    | l => l
  let afterInt := cs.dropWhile isDigit
  match afterInt with
  | [] => !cs.isEmpty
  | '.' :: frac => !frac.isEmpty && frac.all isDigit
  | _ => false

/-- `getFieldType` from the field-exploration module. Booleans and numbers
type directly; strings try date detection, then the numeric-string test:
`parseFloat(value)` must be finite and `value.trim()` nonempty, and the
formatting-stripped value must match `/^-?\d*\.?\d+$/`; everything else is
`string`. -/
def getFieldType (dateParseOk : String → Bool) (value : JSValue) : FieldType :=
  match value with
  | .bool _ => .boolean
  | .num _ => .number
  | .str s =>
    if isDateString dateParseOk s then .date
    else if parseFloatFinite s && decide (jsTrim s ≠ "") then
      if numericShape (stripFormatting s) then .number else .string
    else .string
  | _ => .string

/-! ### Helper lemmas about the retry loop -/

theorem executeWithRetryAux_invocations_le (call : Nat → Except JSValue α)
    (cfg : RetryConfig) :
    ∀ fuel attempt, (executeWithRetryAux call cfg attempt fuel).invocations ≤ fuel := by
  intro fuel
  induction fuel with
  | zero => intro attempt; simp [executeWithRetryAux]
  | succ n ih =>
    intro attempt
    simp only [executeWithRetryAux]
    split
    · simp
    · split
      · simp
      · split
        · simp
        · exact Nat.succ_le_succ (ih (attempt + 1))

theorem executeWithRetryAux_not_crashed (call : Nat → Except JSValue α)
    (cfg : RetryConfig)
    (hclass : ∀ n e, call n = .error e → (parseError e).isOk = true) :
    ∀ fuel attempt, attempt + fuel = cfg.maxRetries + 1 → 1 ≤ fuel →
      (executeWithRetryAux call cfg attempt fuel).outcome.isCrashed = false := by
  intro fuel
  induction fuel with
  | zero => intro attempt _ h1; omega
  | succ n ih =>
    intro attempt hsum _
    simp only [executeWithRetryAux]
    split
    · simp [RetryOutcome.isCrashed]
    · next e hc =>
      have hok := hclass attempt e hc
      split
      · next u hp => rw [hp] at hok; simp [Except.isOk, Except.toBool] at hok
      · next lastError hp =>
        split
        · simp [RetryOutcome.isCrashed]
        · next h =>
          have hne : ¬ attempt = cfg.maxRetries := fun habs => h (by simp [habs])
          have hn1 : 1 ≤ n := by omega
          exact ih (attempt + 1) (by omega) hn1

theorem executeWithRetryAux_always_fail (call : Nat → Except JSValue α)
    (cfg : RetryConfig) (e : Nat → JSValue) (a : Nat → ApiError)
    (hc : ∀ n, call n = .error (e n))
    (hp : ∀ n, parseError (e n) = .ok (a n))
    (hr : ∀ n, (a n).canRetry = true) :
    ∀ fuel attempt, attempt + fuel = cfg.maxRetries + 1 → 1 ≤ fuel →
      (executeWithRetryAux call cfg attempt fuel).invocations = fuel ∧
      (executeWithRetryAux call cfg attempt fuel).outcome
        = RetryOutcome.failure (a cfg.maxRetries) ∧
      (executeWithRetryAux call cfg attempt fuel).delays
        = (List.range' attempt (fuel - 1)).map (fun i => computeDelay cfg (a i) i) := by
  intro fuel
  induction fuel with
  | zero => intro attempt _ h1; omega
  | succ n ih =>
    intro attempt hsum _
    simp only [executeWithRetryAux, hc attempt, hp attempt]
    rcases Nat.eq_zero_or_pos n with hn | hn
    · subst hn
      have hm : attempt = cfg.maxRetries := by omega
      simp [hm, hr]
    · have hne : ¬ attempt = cfg.maxRetries := by omega
      split
      · next h =>
        rw [hr attempt] at h
        simp at h
        exact absurd h hne
      · obtain ⟨h1, h2, h3⟩ := ih (attempt + 1) (by omega) hn
        refine ⟨by simp [h1], by simp [h2], ?_⟩
        rw [h3]
        have hsplit : List.range' attempt n = attempt :: List.range' (attempt + 1) (n - 1) := by
          have hn' : n = (n - 1) + 1 := by omega
          rw [hn']
          exact List.range'_succ attempt (n - 1) 1
        simp [Nat.succ_sub_one, hsplit]

/-! ### Concrete error objects used by witnesses and counterexamples -/

/-- A 500 response with an empty body object, as `fetchWithErrorHandling`
would throw it. -/
def srvErrObj : JSValue := mkHttpError (.num 500) (.obj []) (.obj [])

/-- Its classification. -/
def srvApiError : ApiError :=
  { type := .server,
    message := "Server error. The API service is temporarily unavailable.",
    canRetry := true, statusCode := some (.num 500), originalError := srvErrObj }

/-- A 403 response with an empty body object. -/
def authErrObj : JSValue := mkHttpError (.num 403) (.obj []) (.obj [])

/-- Its classification. -/
def authApiError : ApiError :=
  { type := .auth,
    message := "Authentication failed. Please check your API key.",
    canRetry := false, statusCode := some (.num 403), originalError := authErrObj }

/-- An Alpha-Vantage throttling body: the `Note` field carries the
call-frequency marker. -/
def avNoteData : JSValue :=
  .obj [("Note", .str "Thank you! Our standard API call frequency is 25 requests per day.")]

/-- A 200 response carrying the throttling note, with a `Retry-After: 45`
header present. -/
def avRateErrObj : JSValue :=
  mkHttpError (.num 200) avNoteData (.obj [("retry-after", .str "45")])

/-- Its classification: the provider branch fires with the fixed
`retryAfter = 60`. -/
def avRateApiError : ApiError :=
  { type := .rate_limit,
    message := "API rate limit exceeded. Please wait before making another request.",
    retryAfter := some 60, canRetry := true,
    statusCode := some (.num 200), originalError := avRateErrObj }

theorem parseError_srvErrObj : parseError srvErrObj = .ok srvApiError := rfl

theorem parseError_authErrObj : parseError authErrObj = .ok authApiError := rfl

theorem parseError_avRateErrObj : parseError avRateErrObj = .ok avRateApiError := rfl

/-! ### C1 -/

/-- C1: `executeWithRetry` invokes the wrapped call at most `maxRetries + 1`
times, and - provided every thrown error is classifiable (`parseError`
succeeds on it, which holds for all the axios-shaped errors the transport
produces) - it never lets anything other than a classified `ApiError`
escape: the outcome is a success or a `failure` carrying a `parseError`
result. An always-failing retryable call with `maxRetries = 3` is invoked
exactly 4 times and rejects with the classified error of the last attempt;
a call whose first error classifies as non-retryable is invoked exactly
once. -/
theorem C1_executeWithRetry_invocations (α : Type) (call : Nat → Except JSValue α)
    (cfg : RetryConfig)
    (hclass : ∀ n e, call n = .error e → (parseError e).isOk = true) :
    (executeWithRetry call cfg).invocations ≤ cfg.maxRetries + 1 ∧
    (executeWithRetry call cfg).outcome.isCrashed = false ∧
    (∀ (e : Nat → JSValue) (a : Nat → ApiError),
      (∀ n, call n = .error (e n)) → (∀ n, parseError (e n) = .ok (a n)) →
      (∀ n, (a n).canRetry = true) → cfg.maxRetries = 3 →
      (executeWithRetry call cfg).invocations = 4 ∧
      (executeWithRetry call cfg).outcome = RetryOutcome.failure (a 3)) ∧
    (∀ e₀ a₀, call 0 = .error e₀ → parseError e₀ = .ok a₀ → a₀.canRetry = false →
      (executeWithRetry call cfg).invocations = 1 ∧
      (executeWithRetry call cfg).outcome = RetryOutcome.failure a₀) := by
  refine ⟨executeWithRetryAux_invocations_le call cfg (cfg.maxRetries + 1) 0,
    executeWithRetryAux_not_crashed call cfg hclass (cfg.maxRetries + 1) 0 (by omega)
      (by omega), ?_, ?_⟩
  · intro e a hc hp hr hm
    obtain ⟨h1, h2, _⟩ := executeWithRetryAux_always_fail call cfg e a hc hp hr
      (cfg.maxRetries + 1) 0 (by omega) (by omega)
    exact ⟨by rw [executeWithRetry, h1, hm], by rw [executeWithRetry, h2, hm]⟩
  · intro e₀ a₀ hc0 hp0 hcr
    rw [executeWithRetry]
    simp [executeWithRetryAux, hc0, hp0, hcr]

/-- Witness for C1: a constant 500-failure is retried to 4 invocations; a
constant 403-failure stops after 1. -/
theorem C1_witness :
    (executeWithRetry (fun _ => Except.error srvErrObj : Nat → Except JSValue Unit)
        defaultRetryConfig).invocations = 4 ∧
    (executeWithRetry (fun _ => Except.error authErrObj : Nat → Except JSValue Unit)
        defaultRetryConfig).invocations = 1 := by
  constructor
  · exact ((C1_executeWithRetry_invocations Unit _ defaultRetryConfig
      (fun n e he => by injection he with h; rw [← h]; rfl)).2.2.1
      (fun _ => srvErrObj) (fun _ => srvApiError)
      (fun _ => rfl) (fun _ => parseError_srvErrObj) (fun _ => rfl) rfl).1
  · exact ((C1_executeWithRetry_invocations Unit _ defaultRetryConfig
      (fun n e he => by injection he with h; rw [← h]; rfl)).2.2.2
      authErrObj authApiError rfl parseError_authErrObj rfl).1

/-! ### C2 -/

/-- The pre-jitter delay formula as the specification words it: cap at
`maxDelayMs` FIRST, then raise to the rate-limit `retryAfterSeconds * 1000`.
Stated only to compare the spec's claim against the source's
`computeDelay`; the source applies the cap last. -/
def specClaimedDelay (cfg : RetryConfig) (err : ApiError) (attempt : Nat) : Int :=
  let d := min cfg.maxDelay (cfg.baseDelay * cfg.backoffMultiplier ^ attempt)
  if err.type = ErrorType.rate_limit && retryAfterTruthy err then
    max d ((err.retryAfter.getD 0) * 1000)
  else d

/-- Counterexample to C2 as stated: for the default policy and a rate-limit
error with `retryAfterSeconds = 60`, the spec's formula yields `60000` at
attempt 0, but the code computes `30000` - the cap is applied AFTER the
rate-limit raise, so no pre-jitter delay ever exceeds `maxDelayMs`. The
whole delay trace of an always-rate-limited run is `[30000, 30000, 30000]`. -/
theorem C2_counterexample :
    specClaimedDelay defaultRetryConfig avRateApiError 0 = 60000 ∧
    computeDelay defaultRetryConfig avRateApiError 0 = 30000 ∧
    (executeWithRetry (fun _ => Except.error avRateErrObj : Nat → Except JSValue Unit)
        defaultRetryConfig).delays = [30000, 30000, 30000] := by
  refine ⟨by decide, by decide, by decide⟩

/-- C2 amended: the pre-jitter delay at attempt `attempt` equals
`min(maxDelayMs, raisedBackoff)` where `raisedBackoff` is
`baseDelayMs * backoffMultiplier^attempt` raised to
`retryAfterSeconds * 1000` for a rate-limit error with a truthy
`retryAfterSeconds` - the cap is applied after the raise, so the delay
never exceeds `maxDelayMs` (a rate-limit `retryAfterSeconds` can NOT exceed
the cap). For an always-failing retryable call the delays slept are exactly
this formula at attempts `0 .. maxRetries-1`; without a rate-limit raise
the sequence is `min(base * mult^attempt, maxDelay)`, e.g.
`1000, 2000, 4000, ...` capped at `30000` for the defaults. -/
theorem C2_delay_formula (α : Type) (call : Nat → Except JSValue α)
    (cfg : RetryConfig) (e : Nat → JSValue) (a : Nat → ApiError)
    (hc : ∀ n, call n = .error (e n))
    (hp : ∀ n, parseError (e n) = .ok (a n))
    (hr : ∀ n, (a n).canRetry = true) :
    (executeWithRetry call cfg).delays
      = (List.range cfg.maxRetries).map (fun i => computeDelay cfg (a i) i) ∧
    (∀ err attempt, computeDelay cfg err attempt =
      min cfg.maxDelay
        (if err.type = ErrorType.rate_limit && retryAfterTruthy err then
          max (cfg.baseDelay * cfg.backoffMultiplier ^ attempt)
            ((err.retryAfter.getD 0) * 1000)
        else cfg.baseDelay * cfg.backoffMultiplier ^ attempt)) ∧
    (∀ err attempt, computeDelay cfg err attempt ≤ cfg.maxDelay) ∧
    (∀ err attempt, (err.type = ErrorType.rate_limit && retryAfterTruthy err) = false →
      computeDelay cfg err attempt
        = min (cfg.baseDelay * cfg.backoffMultiplier ^ attempt) cfg.maxDelay) := by
  refine ⟨?_, ?_, ?_, ?_⟩
  · obtain ⟨_, _, h3⟩ := executeWithRetryAux_always_fail call cfg e a hc hp hr
      (cfg.maxRetries + 1) 0 (by omega) (by omega)
    rw [executeWithRetry, h3, Nat.succ_sub_one, List.range_eq_range']
  · intro err attempt
    rw [computeDelay, Int.min_comm]
  · intro err attempt
    rw [computeDelay]
    exact min_le_right _ _
  · intro err attempt hcond
    simp [computeDelay, hcond]

/-- Witness for C2's amended claim: the always-rate-limited run's delay
trace matches the formula. -/
theorem C2_witness :
    (executeWithRetry (fun _ => Except.error avRateErrObj : Nat → Except JSValue Unit)
        defaultRetryConfig).delays
      = (List.range 3).map (fun i => computeDelay defaultRetryConfig avRateApiError i) :=
  (C2_delay_formula Unit _ defaultRetryConfig
    (fun _ => avRateErrObj) (fun _ => avRateApiError)
    (fun _ => rfl) (fun _ => parseError_avRateErrObj) (fun _ => rfl)).1

/-! ### Helper lemmas about the map model -/

theorem lookupKey_mapSet {β : Type} (l : List (String × β)) (k : String) (v : β) :
    lookupKey (mapSet l k v) k = some v := by
  induction l with
  | nil => simp [mapSet, lookupKey]
  | cons kv rest ih =>
    obtain ⟨k₁, v₁⟩ := kv
    by_cases h : k₁ = k
    · simp [mapSet, h, lookupKey]
    · simp [mapSet, h, lookupKey, ih]

theorem mapSet_length_le {β : Type} (l : List (String × β)) (k : String) (v : β) :
    (mapSet l k v).length ≤ l.length + 1 := by
  induction l with
  | nil => simp [mapSet]
  | cons kv rest ih =>
    obtain ⟨k₁, v₁⟩ := kv
    by_cases h : k₁ = k
    · simp [mapSet, h]
    · simp only [mapSet, if_neg h, List.length_cons]
      omega

theorem ttlOrDefault_some (t d : Nat) (h : t ≠ 0) : ttlOrDefault (some t) d = t := by
  simp [ttlOrDefault, h]

/-- When the store stays at or below the `1.2 * maxSize` trigger, `set` is
a plain `Map.set` and no sweep runs. -/
theorem set_entries_no_sweep (st : CacheState α) (url : String) (d : α)
    (headers : Option (List (String × String))) (ttl : Option Nat) (now : Nat)
    (hsize : 5 * (st.entries.length + 1) ≤ 6 * st.config.maxSize) :
    (ApiCache.set st url d headers ttl now).entries
      = mapSet st.entries (ApiCache.generateKey url headers)
          { data := d, timestamp := now,
            expiresAt := now + ttlOrDefault ttl st.config.defaultTTL } := by
  have hlen := mapSet_length_le st.entries (ApiCache.generateKey url headers)
    ({ data := d, timestamp := now,
       expiresAt := now + ttlOrDefault ttl st.config.defaultTTL } : CacheEntry α)
  simp only [ApiCache.set]
  rw [if_neg (by omega)]

theorem lookupKey_eq_none {β : Type} (l : List (String × β)) (k : String)
    (h : k ∉ l.map Prod.fst) : lookupKey l k = none := by
  induction l with
  | nil => rfl
  | cons kv rest ih =>
    obtain ⟨k₁, v₁⟩ := kv
    simp only [List.map_cons, List.mem_cons] at h
    push_neg at h
    have hk : ¬ k₁ = k := fun hh => h.1 hh.symm
    simp [lookupKey, hk, ih h.2]

theorem lookupKey_mapDelete_self {β : Type} (l : List (String × β)) (k : String)
    (hnd : (l.map Prod.fst).Nodup) : lookupKey (mapDelete l k) k = none := by
  induction l with
  | nil => rfl
  | cons kv rest ih =>
    obtain ⟨k₁, v₁⟩ := kv
    simp only [List.map_cons, List.nodup_cons] at hnd
    by_cases h : k₁ = k
    · subst h
      simpa [mapDelete] using lookupKey_eq_none rest k₁ hnd.1
    · simp [mapDelete, h, lookupKey, ih hnd.2]

/-! ### C3 -/

/-- C3: `ApiCache.get` yields the cached payload exactly when an entry
exists under the derived key and the clock is strictly before `expiresAt`;
an entry found expired is deleted as a side effect (given the `Map`'s
unique-key invariant) and reported absent. Storing with `ttl = 1000` makes
an immediate `get` return the payload and a `get` 1001 ms later report
absence (the size-bound hypothesis keeps `set` from triggering its
over-capacity sweep, which cannot happen below `1.2 * maxSize` entries). -/
theorem C3_get_freshness (α : Type) :
    (∀ (st : CacheState α) url headers now (d : α),
      (ApiCache.get st url headers now).1 = some d ↔
        ∃ e, lookupKey st.entries (ApiCache.generateKey url headers) = some e ∧
          now < e.expiresAt ∧ d = e.data) ∧
    (∀ (st : CacheState α) url headers now e,
      (st.entries.map Prod.fst).Nodup →
      lookupKey st.entries (ApiCache.generateKey url headers) = some e →
      e.expiresAt ≤ now →
      (ApiCache.get st url headers now).1 = none ∧
      lookupKey (ApiCache.get st url headers now).2.entries
        (ApiCache.generateKey url headers) = none) ∧
    (∀ (st : CacheState α) url headers (d : α) now,
      5 * (st.entries.length + 1) ≤ 6 * st.config.maxSize →
      (ApiCache.get (ApiCache.set st url d headers (some 1000) now) url headers now).1
        = some d ∧
      (ApiCache.get (ApiCache.set st url d headers (some 1000) now) url headers
        (now + 1001)).1 = none) := by
  refine ⟨?_, ?_, ?_⟩
  · intro st url headers now d
    rw [ApiCache.get]
    constructor
    · intro h
      cases hl : lookupKey st.entries (ApiCache.generateKey url headers) with
      | none => rw [hl] at h; simp at h
      | some e =>
        rw [hl] at h
        by_cases hexp : e.expiresAt ≤ now
        · simp [hexp] at h
        · simp only [hexp, if_false, Option.some.injEq] at h
          exact ⟨e, rfl, by omega, by simp [h]⟩
    · rintro ⟨e, hl, hfresh, rfl⟩
      rw [hl]
      simp [Nat.not_le.mpr hfresh]
  · intro st url headers now e hnd hl hexp
    rw [ApiCache.get, hl]
    refine ⟨by simp [hexp], ?_⟩
    simpa [hexp] using lookupKey_mapDelete_self st.entries
      (ApiCache.generateKey url headers) hnd
  · intro st url headers d now hsize
    have hset := set_entries_no_sweep st url d headers (some 1000) now hsize
    rw [ttlOrDefault_some 1000 st.config.defaultTTL (by omega)] at hset
    have hlook := lookupKey_mapSet st.entries (ApiCache.generateKey url headers)
      ({ data := d, timestamp := now, expiresAt := now + 1000 } : CacheEntry α)
    constructor
    · have hfresh : ¬ (now + 1000 ≤ now) := by omega
      simp [ApiCache.get, hset, hlook, hfresh]
    · have hexp : now + 1000 ≤ now + 1001 := by omega
      simp [ApiCache.get, hset, hlook, hexp]

/-- Concrete states for the C3 witness. -/
def c3DemoEntry : CacheEntry Nat := { data := 7, timestamp := 0, expiresAt := 5 }

def c3DemoState : CacheState Nat :=
  { entries := [("u:", c3DemoEntry)], config := { defaultTTL := 100, maxSize := 50 } }

def c3EmptyState : CacheState Nat :=
  { entries := [], config := { defaultTTL := 100, maxSize := 50 } }

/-- Witness for C3: a concrete one-entry cache exercises every part of the
theorem (fresh hit, lazy expiry with deletion, and the 1000 ms TTL
round-trip). -/
theorem C3_witness :
    (ApiCache.get c3DemoState "u" none 3).1 = some 7 ∧
    (ApiCache.get c3DemoState "u" none 5).1 = none ∧
    lookupKey (ApiCache.get c3DemoState "u" none 5).2.entries "u:" = none ∧
    (ApiCache.get (ApiCache.set c3EmptyState "v" 9 none (some 1000) 20) "v" none 20).1
      = some 9 ∧
    (ApiCache.get (ApiCache.set c3EmptyState "v" 9 none (some 1000) 20) "v" none 1021).1
      = none := by
  refine ⟨?_, ?_, ?_, ?_, ?_⟩
  · exact ((C3_get_freshness Nat).1 c3DemoState "u" none 3 7).mpr
      ⟨c3DemoEntry, rfl, by decide, rfl⟩
  · exact ((C3_get_freshness Nat).2.1 c3DemoState "u" none 5
      c3DemoEntry (by decide) rfl (by decide)).1
  · exact ((C3_get_freshness Nat).2.1 c3DemoState "u" none 5
      c3DemoEntry (by decide) rfl (by decide)).2
  · exact ((C3_get_freshness Nat).2.2 c3EmptyState "v" none 9 20 (by decide)).1
  · exact ((C3_get_freshness Nat).2.2 c3EmptyState "v" none 9 20 (by decide)).2

/-! ### C4 -/

/-- Deleting the keys of the first `n` entries of the timestamp sort leaves
at most `l.length - n` entries. -/
theorem evictOldest_length_le (l : List (String × CacheEntry α)) (n : Nat) :
    (l.filter (fun kv => !decide (kv.1 ∈
      ((l.insertionSort (fun a b => a.2.timestamp ≤ b.2.timestamp)).take n).map
        (fun kv => kv.1)))).length ≤ l.length - n := by
  classical
  set r := fun (a b : String × CacheEntry α) => a.2.timestamp ≤ b.2.timestamp with hr
  set sorted := l.insertionSort r with hsorted
  set removedKeys := (sorted.take n).map (fun kv => kv.1) with hrk
  set P := fun kv : String × CacheEntry α => !decide (kv.1 ∈ removedKeys) with hP
  have hperm : sorted.Perm l := List.perm_insertionSort r l
  have h1 : (l.filter P).length = (sorted.filter P).length :=
    ((hperm.filter P).length_eq).symm
  have h2 : sorted.filter P = (sorted.take n).filter P ++ (sorted.drop n).filter P := by
    rw [← List.filter_append, List.take_append_drop]
  have h3 : (sorted.take n).filter P = [] := by
    rw [List.filter_eq_nil_iff]
    intro kv hkv
    simp only [hP, Bool.not_eq_true', decide_eq_false_iff_not, not_not]
    exact List.mem_map_of_mem (fun kv => kv.1) hkv
  have h4 : (sorted.filter P).length ≤ (sorted.drop n).length := by
    rw [h2, h3]
    simpa using List.length_filter_le P (sorted.drop n)
  have h5 : sorted.length = l.length := hperm.length_eq
  rw [h1]
  calc (sorted.filter P).length ≤ (sorted.drop n).length := h4
    _ = sorted.length - n := List.length_drop n sorted
    _ = l.length - n := by rw [h5]

/-- With unique keys the same deletion removes exactly `n` entries. -/
theorem evictOldest_length_eq (l : List (String × CacheEntry α)) (n : Nat)
    (_hn : n ≤ l.length) (hnd : (l.map Prod.fst).Nodup) :
    (l.filter (fun kv => !decide (kv.1 ∈
      ((l.insertionSort (fun a b => a.2.timestamp ≤ b.2.timestamp)).take n).map
        (fun kv => kv.1)))).length = l.length - n := by
  classical
  set r := fun (a b : String × CacheEntry α) => a.2.timestamp ≤ b.2.timestamp with hr
  set sorted := l.insertionSort r with hsorted
  set removedKeys := (sorted.take n).map (fun kv => kv.1) with hrk
  set P := fun kv : String × CacheEntry α => !decide (kv.1 ∈ removedKeys) with hP
  have hperm : sorted.Perm l := List.perm_insertionSort r l
  have h1 : (l.filter P).length = (sorted.filter P).length :=
    ((hperm.filter P).length_eq).symm
  have h2 : sorted.filter P = (sorted.take n).filter P ++ (sorted.drop n).filter P := by
    rw [← List.filter_append, List.take_append_drop]
  have h3 : (sorted.take n).filter P = [] := by
    rw [List.filter_eq_nil_iff]
    intro kv hkv
    simp only [hP, Bool.not_eq_true', decide_eq_false_iff_not, not_not]
    exact List.mem_map_of_mem (fun kv => kv.1) hkv
  have hndSorted : (sorted.map Prod.fst).Nodup := (hperm.map Prod.fst).nodup_iff.mpr hnd
  have hdisj : ((sorted.take n).map Prod.fst).Disjoint ((sorted.drop n).map Prod.fst) := by
    have : ((sorted.take n).map Prod.fst ++ (sorted.drop n).map Prod.fst).Nodup := by
      rw [← List.map_append, List.take_append_drop]
      exact hndSorted
    exact (List.nodup_append.mp this).2.2
  have h6 : (sorted.drop n).filter P = sorted.drop n := by
    rw [List.filter_eq_self]
    intro kv hkv
    simp only [hP, Bool.not_eq_true', decide_eq_false_iff_not]
    intro hmem
    exact hdisj hmem (List.mem_map_of_mem Prod.fst hkv)
  have h5 : sorted.length = l.length := hperm.length_eq
  rw [h1, h2, h3, h6]
  simp [List.length_drop, h5]

/-- A demo run for C4: six inserts at timestamps `0..5` into a
`maxSize = 5` cache (below the `1.2 * maxSize` trigger, so no sweep runs
during the inserts). -/
def sweepDemoState : CacheState Nat :=
  let c0 : CacheState Nat := { entries := [], config := { defaultTTL := 100, maxSize := 5 } }
  let c1 := ApiCache.set c0 "u0" 10 none none 0
  let c2 := ApiCache.set c1 "u1" 11 none none 1
  let c3 := ApiCache.set c2 "u2" 12 none none 2
  let c4 := ApiCache.set c3 "u3" 13 none none 3
  let c5 := ApiCache.set c4 "u4" 14 none none 4
  ApiCache.set c5 "u5" 15 none none 5

/-- C4: the sweep leaves only unexpired entries, never more than `maxSize`
of them; with the `Map`'s unique-key invariant it removes, beyond the
expired ones, exactly enough oldest-by-`timestamp` entries to get back to
`maxSize` (so the survivor count is `min(unexpired, maxSize)`). In the
demo run - `maxSize + 1 = 6` distinct unexpired entries - the sweep leaves
5 entries and the earliest-stored `u0` is the one evicted. -/
theorem C4_cleanup_caps_size (α : Type) :
    (∀ (st : CacheState α) (now : Nat),
      (ApiCache.cleanup st now).entries.length ≤ st.config.maxSize ∧
      ((ApiCache.cleanup st now).entries.all
        (fun kv => !decide (kv.2.expiresAt ≤ now))) = true) ∧
    (∀ (st : CacheState α) (now : Nat),
      (st.entries.map Prod.fst).Nodup →
      (ApiCache.cleanup st now).entries.length
        = min (st.entries.filter (fun kv => !decide (kv.2.expiresAt ≤ now))).length
            st.config.maxSize) ∧
    (sweepDemoState.entries.length = 6 ∧
      (ApiCache.cleanup sweepDemoState 6).entries.length = 5 ∧
      (ApiCache.cleanup sweepDemoState 6).entries.map Prod.fst
        = ["u1:", "u2:", "u3:", "u4:", "u5:"] ∧
      lookupKey (ApiCache.cleanup sweepDemoState 6).entries "u0:" = none) := by
  refine ⟨?_, ?_, by decide⟩
  · intro st now
    simp only [ApiCache.cleanup]
    constructor
    · split
      · next h =>
        have := evictOldest_length_le
          (st.entries.filter (fun kv => !decide (kv.2.expiresAt ≤ now)))
          ((st.entries.filter (fun kv => !decide (kv.2.expiresAt ≤ now))).length
            - st.config.maxSize)
        omega
      · next h => omega
    · rw [List.all_eq_true]
      intro kv hkv
      have hkept : kv ∈ st.entries.filter (fun kv => !decide (kv.2.expiresAt ≤ now)) := by
        revert hkv
        split
        · intro hkv; exact (List.mem_filter.mp hkv).1
        · intro hkv; exact hkv
      exact (List.mem_filter.mp hkept).2
  · intro st now hnd
    simp only [ApiCache.cleanup]
    have hndKept : ((st.entries.filter
        (fun kv => !decide (kv.2.expiresAt ≤ now))).map Prod.fst).Nodup := by
      have hfil : List.Sublist
          (st.entries.filter (fun kv => !decide (kv.2.expiresAt ≤ now))) st.entries :=
        List.filter_sublist st.entries
      exact List.Nodup.sublist (hfil.map Prod.fst) hnd
    split
    · next h =>
      have := evictOldest_length_eq
        (st.entries.filter (fun kv => !decide (kv.2.expiresAt ≤ now)))
        ((st.entries.filter (fun kv => !decide (kv.2.expiresAt ≤ now))).length
          - st.config.maxSize) (by omega) hndKept
      omega
    · next h => omega

/-- Witness for C4's unique-key conjunct at the demo state. -/
theorem C4_witness :
    (ApiCache.cleanup sweepDemoState 6).entries.length
      = min (sweepDemoState.entries.filter
          (fun kv => !decide (kv.2.expiresAt ≤ 6))).length
        sweepDemoState.config.maxSize :=
  (C4_cleanup_caps_size Nat).2.1 sweepDemoState 6 (by decide)

/-! ### C5 and C10: cachedFetch -/

/-- The empty cache with the singleton `apiCache` config. -/
def c5EmptyState : CacheState JSValue := { entries := [], config := apiCacheConfig }

/-- Counterexample to C5 as stated: when the transport's payload is falsy
(here the JSON value `null`), the second `cachedFetch` in a rapid pair is a
cache MISS - the hit test is `if (cachedData)` on the `data`-or-`null`
return of `get` - so the transport is invoked twice, not once. -/
theorem C5_counterexample :
    (cachedFetch c5EmptyState "u" none none (some 5000) false JSValue.null 0).2.2
      + (cachedFetch
          (cachedFetch c5EmptyState "u" none none (some 5000) false JSValue.null 0).2.1
          "u" none none (some 5000) false JSValue.null 10).2.2 = 2 := by decide

/-- C5 amended: `cachedFetch` memoizes GET responses whose payload is
TRUTHY: starting from a cache with no entry under the derived key (and that
stays below the sweep trigger), a first GET call performs one transport
call and a second call within the TTL performs none, returning the cached
payload (whatever the transport would now return). A falsy payload is
re-fetched instead (see the counterexample). -/
theorem C5_cachedFetch_memoizes (st : CacheState JSValue) (url : String)
    (headers : Option (List (String × String))) (T : Nat) (d d₂ : JSValue)
    (now now₂ : Nat)
    (hmiss : lookupKey st.entries
      (ApiCache.generateKey url (some (headers.getD []))) = none)
    (htruthy : truthy d = true) (hT : T ≠ 0)
    (hsize : 5 * (st.entries.length + 1) ≤ 6 * st.config.maxSize)
    (hfresh : now₂ < now + T) :
    (cachedFetch st url none headers (some T) false d now).2.2 = 1 ∧
    (cachedFetch st url none headers (some T) false d now).1 = d ∧
    (cachedFetch (cachedFetch st url none headers (some T) false d now).2.1
      url none headers (some T) false d₂ now₂).2.2 = 0 ∧
    (cachedFetch (cachedFetch st url none headers (some T) false d now).2.1
      url none headers (some T) false d₂ now₂).1 = d := by
  have hget1 : ApiCache.get st url (some (headers.getD [])) now = (none, st) := by
    rw [ApiCache.get, hmiss]
  have hrun1 : cachedFetch st url none headers (some T) false d now
      = (d, ApiCache.set st url d (some (headers.getD [])) (some T) now, 1) := by
    simp [cachedFetch, hget1, truthy]
  have hset := set_entries_no_sweep st url d (some (headers.getD [])) (some T) now hsize
  rw [ttlOrDefault_some T st.config.defaultTTL hT] at hset
  have hlook := lookupKey_mapSet st.entries
    (ApiCache.generateKey url (some (headers.getD [])))
    ({ data := d, timestamp := now, expiresAt := now + T } : CacheEntry JSValue)
  have hget2 : (ApiCache.get (ApiCache.set st url d (some (headers.getD [])) (some T) now)
      url (some (headers.getD [])) now₂).1 = some d := by
    rw [ApiCache.get, hset, hlook]
    simp [Nat.not_le.mpr hfresh]
  refine ⟨by rw [hrun1], by rw [hrun1], ?_, ?_⟩
  · rw [hrun1]
    simp only [cachedFetch]
    have hp : ApiCache.get (ApiCache.set st url d (some (headers.getD [])) (some T) now)
        url (some (headers.getD [])) now₂
        = (some d, (ApiCache.get (ApiCache.set st url d (some (headers.getD []))
            (some T) now) url (some (headers.getD [])) now₂).2) := by
      rw [← hget2]
    rw [hp]
    simp [htruthy]
  · rw [hrun1]
    simp only [cachedFetch]
    have hp : ApiCache.get (ApiCache.set st url d (some (headers.getD [])) (some T) now)
        url (some (headers.getD [])) now₂
        = (some d, (ApiCache.get (ApiCache.set st url d (some (headers.getD []))
            (some T) now) url (some (headers.getD [])) now₂).2) := by
      rw [← hget2]
    rw [hp]
    simp [htruthy]

/-- Witness for C5's amended claim: a truthy payload (`7`) is fetched once
and then served from the cache. -/
theorem C5_witness :
    (cachedFetch c5EmptyState "u" none none (some 5000) false (JSValue.num 7) 0).2.2 = 1 ∧
    (cachedFetch (cachedFetch c5EmptyState "u" none none (some 5000) false
        (JSValue.num 7) 0).2.1
      "u" none none (some 5000) false (JSValue.num 8) 10).2.2 = 0 := by
  obtain ⟨h1, _, h3, _⟩ := C5_cachedFetch_memoizes c5EmptyState "u" none 5000
    (JSValue.num 7) (JSValue.num 8) 0 10 rfl rfl (by omega) (by decide) (by omega)
  exact ⟨h1, h3⟩

/-- A cache whose entry under the key of `url = "u"` (empty headers) holds
the falsy payload `null`, stored fresh. -/
def c10Entry : CacheEntry JSValue := { data := JSValue.null, timestamp := 0, expiresAt := 100 }

def c10State : CacheState JSValue :=
  { entries := [("u:\x7b\x7d", c10Entry)], config := apiCacheConfig }

/-- C10: a falsy cached payload never short-circuits: even with a present,
unexpired entry, `cachedFetch` performs a transport call and re-stores the
fetched payload over the entry - the truthiness test on the
`data`-or-`null` return of `get` cannot tell a cached falsy value from
absence. Conversely, whenever `cachedFetch` performs no transport call,
the value it returns is truthy. -/
theorem C10_falsy_payload_refetches (st : CacheState JSValue) (url : String)
    (headers : Option (List (String × String))) (ttl : Option Nat)
    (fetched : JSValue) (now : Nat) (e : CacheEntry JSValue)
    (hl : lookupKey st.entries
      (ApiCache.generateKey url (some (headers.getD []))) = some e)
    (hfalsy : truthy e.data = false)
    (hfresh : now < e.expiresAt)
    (hsize : 5 * (st.entries.length + 1) ≤ 6 * st.config.maxSize) :
    (cachedFetch st url none headers ttl false fetched now).2.2 = 1 ∧
    (cachedFetch st url none headers ttl false fetched now).1 = fetched ∧
    (∃ e', lookupKey (cachedFetch st url none headers ttl false fetched now).2.1.entries
        (ApiCache.generateKey url (some (headers.getD []))) = some e' ∧
      e'.data = fetched) ∧
    (∀ (st' : CacheState JSValue) url' method headers' ttl' skip fetched' now',
      (cachedFetch st' url' method headers' ttl' skip fetched' now').2.2 = 0 →
      truthy (cachedFetch st' url' method headers' ttl' skip fetched' now').1 = true) := by
  have hget : ApiCache.get st url (some (headers.getD [])) now = (some e.data, st) := by
    rw [ApiCache.get, hl]
    simp [Nat.not_le.mpr hfresh]
  have hrun : cachedFetch st url none headers ttl false fetched now
      = (fetched, ApiCache.set st url fetched (some (headers.getD [])) ttl now, 1) := by
    simp only [cachedFetch]
    rw [hget]
    simp [hfalsy]
  have hset := set_entries_no_sweep st url fetched (some (headers.getD [])) ttl now hsize
  refine ⟨by rw [hrun], by rw [hrun], ?_, ?_⟩
  · refine ⟨⟨fetched, now, now + ttlOrDefault ttl st.config.defaultTTL⟩, ?_, rfl⟩
    rw [hrun]
    simp only [hset]
    exact lookupKey_mapSet _ _ _
  · intro st' url' method headers' ttl' skip fetched' now'
    simp only [cachedFetch]
    split
    · intro h; simp at h
    · split
      · next hcond =>
        intro _
        exact hcond
      · intro h; simp at h

/-- Witness for C10: a cached `null` under the key of `"u"` with empty
headers is refetched (payload `7`), and the short-circuit conjunct is
instantiated at the same call. -/
theorem C10_witness :
    (cachedFetch c10State "u" none none none false (JSValue.num 7) 5).2.2 = 1 ∧
    (cachedFetch c10State "u" none none none false (JSValue.num 7) 5).1
      = JSValue.num 7 := by
  obtain ⟨h1, h2, _, _⟩ := C10_falsy_payload_refetches c10State "u" none none
    (JSValue.num 7) 5 c10Entry rfl rfl (by decide) (by decide)
  exact ⟨h1, h2⟩

/-! ### C8 -/

set_option maxRecDepth 8192 in
/-- Counterexample to C8 as stated: `"$5"` is not a date string and its
formatting-stripped form `"5"` matches the signed-decimal regex, yet
`getFieldType` types it `string` - the numeric branch additionally
requires `parseFloat(value)` to be finite, and `parseFloat("$5")` is `NaN`. -/
theorem C8_counterexample :
    numericShape (stripFormatting "$5") = true ∧
    isDateString (fun _ => false) "$5" = false ∧
    parseFloatFinite "$5" = false ∧
    getFieldType (fun _ => false) (JSValue.str "$5") = FieldType.string := by decide

/-- C8 amended: for a string not classified as a date, `getFieldType`
assigns `number` exactly when `parseFloat(value)` is finite AND the trim is
nonempty AND the formatting-stripped value matches `/^-?\d*\.?\d+$/`;
otherwise the string falls through to `string` (so `"1,000"` is a number
but `"$5"`, where `parseFloat` yields `NaN`, is a string). -/
theorem C8_numeric_string_inference (dp : String → Bool) (s : String)
    (hdate : isDateString dp s = false) :
    (getFieldType dp (JSValue.str s) = FieldType.number ↔
      (parseFloatFinite s && decide (jsTrim s ≠ "")
        && numericShape (stripFormatting s)) = true) ∧
    (getFieldType dp (JSValue.str s) = FieldType.number ∨
      getFieldType dp (JSValue.str s) = FieldType.string) := by
  cases hpf : parseFloatFinite s <;> cases htr : (decide (jsTrim s ≠ "") : Bool) <;>
    cases hns : numericShape (stripFormatting s) <;>
    simp [getFieldType, hdate, hpf, htr, hns]

/-- A 309-digit numeral: `parseFloat` of it overflows binary64 to
`Infinity`, so `isFinite` fails and the source types it `string` even
though the stripped value matches the signed-decimal regex. -/
def overflowNumeral : String := ⟨List.replicate 309 '9'⟩

set_option maxRecDepth 8192 in
/-- Witness for C8's amended claim: `"1,000"` is typed `number`, while the
309-digit numeral fails the finiteness conjunct and is typed `string`. -/
theorem C8_witness :
    getFieldType (fun _ => false) (JSValue.str "1,000") = FieldType.number ∧
    getFieldType (fun _ => false) (JSValue.str overflowNumeral) = FieldType.string := by
  constructor
  · exact ((C8_numeric_string_inference (fun _ => false) "1,000" rfl).1).mpr (by decide)
  · have h := C8_numeric_string_inference (fun _ => false) overflowNumeral (by decide)
    have hnot : ¬ getFieldType (fun _ => false) (JSValue.str overflowNumeral)
        = FieldType.number := by
      rw [h.1]
      decide
    exact h.2.resolve_left hnot

/-! ### C6 -/

theorem mkHttpError_eq (status data headers : JSValue) :
    mkHttpError status data headers
      = JSValue.obj [("response", JSValue.obj
          [("status", status), ("data", data), ("headers", headers)]),
        ("message", JSValue.str ("HTTP error! status: " ++ jsToString status))] := rfl

theorem getPropD_errObj (X Y : JSValue) :
    getPropD (JSValue.obj [("response", X), ("message", Y)]) "response" = X := rfl

theorem getPropD_respObj_status (s d h : JSValue) :
    getPropD (JSValue.obj [("status", s), ("data", d), ("headers", h)]) "status" = s := rfl

theorem getPropD_respObj_data (s d h : JSValue) :
    getPropD (JSValue.obj [("status", s), ("data", d), ("headers", h)]) "data" = d := rfl

theorem getPropD_respObj_headers (s d h : JSValue) :
    getPropD (JSValue.obj [("status", s), ("data", d), ("headers", h)]) "headers" = h := rfl

theorem isNullish_false_of_isObjV (v : JSValue) (h : isObjV v = true) :
    isNullish v = false := by
  cases v <;> simp [isNullish] <;> simp [isObjV] at h

/-- C6: for an HTTP failure whose body fires no provider-specific marker
(`alphaVantageCheck` falls through), `parseError` maps the status code as:
429 to `rate_limit`/retryable with `retryAfter` parsed from the
`retry-after` header when that is present (and a nonempty string) or `60`
otherwise; 401 and 403 to `auth`, not retryable; 500, 502, 503, 504 to
`server`, retryable; and any other status to `unknown` with
`canRetry = (status >= 500)`. -/
theorem C6_status_code_mapping :
    (∀ (data headers : JSValue) (ra : String),
      alphaVantageCheck (mkHttpError (.num 429) data headers) (.num 429) data
        = Except.ok none →
      isObjV headers = true →
      getPropD headers "retry-after" = .str ra → ra ≠ "" →
      parseError (mkHttpError (.num 429) data headers)
        = .ok { type := .rate_limit,
                message := "Rate limit exceeded. Please wait " ++ optIntText (parseIntStr ra)
                  ++ " seconds before retrying.",
                retryAfter := parseIntStr ra, canRetry := true,
                statusCode := some (.num 429),
                originalError := mkHttpError (.num 429) data headers }) ∧
    (∀ (data headers : JSValue),
      alphaVantageCheck (mkHttpError (.num 429) data headers) (.num 429) data
        = Except.ok none →
      isObjV headers = true →
      getPropD headers "retry-after" = .undefined →
      parseError (mkHttpError (.num 429) data headers)
        = .ok { type := .rate_limit,
                message := "Rate limit exceeded. Please wait 60 seconds before retrying.",
                retryAfter := some 60, canRetry := true,
                statusCode := some (.num 429),
                originalError := mkHttpError (.num 429) data headers }) ∧
    (∀ (data headers : JSValue) (n : Int), n = 401 ∨ n = 403 →
      alphaVantageCheck (mkHttpError (.num n) data headers) (.num n) data
        = Except.ok none →
      parseError (mkHttpError (.num n) data headers)
        = .ok { type := .auth,
                message := "Authentication failed. Please check your API key.",
                canRetry := false, statusCode := some (.num n),
                originalError := mkHttpError (.num n) data headers }) ∧
    (∀ (data headers : JSValue) (n : Int), n = 500 ∨ n = 502 ∨ n = 503 ∨ n = 504 →
      alphaVantageCheck (mkHttpError (.num n) data headers) (.num n) data
        = Except.ok none →
      parseError (mkHttpError (.num n) data headers)
        = .ok { type := .server,
                message := "Server error. The API service is temporarily unavailable.",
                canRetry := true, statusCode := some (.num n),
                originalError := mkHttpError (.num n) data headers }) ∧
    (∀ (data headers : JSValue) (n : Int),
      n ∉ ([429, 401, 403, 500, 502, 503, 504] : List Int) →
      alphaVantageCheck (mkHttpError (.num n) data headers) (.num n) data
        = Except.ok none →
      parseError (mkHttpError (.num n) data headers)
        = .ok { type := .unknown,
                message := "API request failed with status " ++ toString n,
                canRetry := decide (500 ≤ n), statusCode := some (.num n),
                originalError := mkHttpError (.num n) data headers }) := by
  refine ⟨?_, ?_, ?_, ?_, ?_⟩
  · intro data headers ra hav hobj hra hne
    have hnn := isNullish_false_of_isObjV headers hobj
    simp only [mkHttpError_eq] at hav ⊢
    simp [parseError, getPropD_errObj, getPropD_respObj_status, getPropD_respObj_data,
      getPropD_respObj_headers, truthy, hra, hnn]
    rw [hav]
    simp [jsEqNum, hra, truthy, hne, jsParseIntV, jsToString, hnn]
  · intro data headers hav hobj hra
    have hnn := isNullish_false_of_isObjV headers hobj
    simp only [mkHttpError_eq] at hav ⊢
    simp [parseError, getPropD_errObj, getPropD_respObj_status, getPropD_respObj_data,
      getPropD_respObj_headers, truthy, hra, hnn]
    rw [hav]
    simp [jsEqNum, hra, truthy, optIntText, hnn]
    rfl
  · intro data headers n hn hav
    rcases hn with rfl | rfl <;>
    · simp only [mkHttpError_eq] at hav ⊢
      simp [parseError, getPropD_errObj, getPropD_respObj_status, getPropD_respObj_data,
        getPropD_respObj_headers, truthy]
      rw [hav]
      simp [jsEqNum]
  · intro data headers n hn hav
    rcases hn with rfl | rfl | rfl | rfl <;>
    · simp only [mkHttpError_eq] at hav ⊢
      simp [parseError, getPropD_errObj, getPropD_respObj_status, getPropD_respObj_data,
        getPropD_respObj_headers, truthy]
      rw [hav]
      simp [jsEqNum]
  · intro data headers n hn hav
    simp only [List.mem_cons] at hn
    push_neg at hn
    simp only [mkHttpError_eq] at hav ⊢
    simp [parseError, getPropD_errObj, getPropD_respObj_status, getPropD_respObj_data,
      getPropD_respObj_headers, truthy]
    rw [hav]
    simp [jsEqNum, jsGe500, jsToString, hn.1, hn.2.1, hn.2.2.1, hn.2.2.2.1, hn.2.2.2.2.1,
      hn.2.2.2.2.2.1, hn.2.2.2.2.2.2]

/-- Witness for C6: `Retry-After: 45` yields `retryAfterSeconds = 45`, and
one representative of each of the other status families. -/
theorem C6_witness :
    parseError (mkHttpError (.num 429) (.obj []) (.obj [("retry-after", .str "45")]))
      = .ok { type := .rate_limit,
              message := "Rate limit exceeded. Please wait "
                ++ optIntText (parseIntStr "45") ++ " seconds before retrying.",
              retryAfter := parseIntStr "45", canRetry := true,
              statusCode := some (.num 429),
              originalError := mkHttpError (.num 429) (.obj [])
                (.obj [("retry-after", .str "45")]) } ∧
    parseIntStr "45" = some 45 ∧
    parseError (mkHttpError (.num 403) (.obj []) (.obj []))
      = .ok { type := .auth,
              message := "Authentication failed. Please check your API key.",
              canRetry := false, statusCode := some (.num 403),
              originalError := mkHttpError (.num 403) (.obj []) (.obj []) } ∧
    parseError (mkHttpError (.num 500) (.obj []) (.obj []))
      = .ok { type := .server,
              message := "Server error. The API service is temporarily unavailable.",
              canRetry := true, statusCode := some (.num 500),
              originalError := mkHttpError (.num 500) (.obj []) (.obj []) } ∧
    parseError (mkHttpError (.num 418) (.obj []) (.obj []))
      = .ok { type := .unknown,
              message := "API request failed with status " ++ toString (418 : Int),
              canRetry := decide ((500 : Int) ≤ 418), statusCode := some (.num 418),
              originalError := mkHttpError (.num 418) (.obj []) (.obj []) } := by
  refine ⟨?_, rfl, ?_, ?_, ?_⟩
  · exact C6_status_code_mapping.1 (.obj []) (.obj [("retry-after", .str "45")]) "45"
      rfl rfl rfl (by decide)
  · exact C6_status_code_mapping.2.2.1 (.obj []) (.obj []) 403 (Or.inr rfl) rfl
  · exact C6_status_code_mapping.2.2.2.1 (.obj []) (.obj []) 500 (Or.inl rfl) rfl
  · exact C6_status_code_mapping.2.2.2.2 (.obj []) (.obj []) 418 (by decide) rfl

/-! ### C7 -/

/-- Counterexample to C7 as stated: a throttling body (`Note` contains the
call-frequency marker) arriving WITH a `Retry-After: 45` header still
classifies with `retryAfterSeconds = 60` - the provider branch returns the
fixed default and never consults the header. -/
theorem C7_counterexample :
    getPropD (getPropD (getPropD avRateErrObj "response") "headers") "retry-after"
      = .str "45" ∧
    Except.map (fun a => a.retryAfter) (parseError avRateErrObj)
      = .ok (some 60) ∧
    (some (60 : Int)) ≠ some 45 := by
  refine ⟨rfl, ?_, by decide⟩
  rw [parseError_avRateErrObj]
  rfl

/-- C7 amended: whenever the response body's `Note` is a string containing
the provider's call-frequency marker, `parseError` returns the rate-limit
classification with `retryAfterSeconds = 60` ALWAYS - the `Retry-After`
header is ignored on this path (it is only consulted in the plain
HTTP-429 branch). -/
theorem C7_av_marker_fixed_delay (status data headers : JSValue) (s : String)
    (hobj : isObjV data = true)
    (hnote : getPropD data "Note" = .str s)
    (hmark : strContains s "API call frequency" = true) :
    parseError (mkHttpError status data headers)
      = .ok { type := .rate_limit,
              message := "API rate limit exceeded. Please wait before making another request.",
              retryAfter := some 60, canRetry := true,
              statusCode := some status,
              originalError := mkHttpError status data headers } := by
  have hs : s ≠ "" := by
    intro h
    subst h
    exact absurd hmark (by decide)
  have hav : alphaVantageCheck (mkHttpError status data headers) status data
      = .ok (some { type := .rate_limit,
                    message := "API rate limit exceeded. Please wait before making another request.",
                    retryAfter := some 60, canRetry := true,
                    statusCode := some status,
                    originalError := mkHttpError status data headers }) := by
    cases data <;> simp [isObjV] at hobj
    simp [alphaVantageCheck, truthy, isObjV, hnote, chkStep, jsIncludes, hs, hmark]
  simp only [mkHttpError_eq] at hav ⊢
  simp [parseError, getPropD_errObj, getPropD_respObj_status, getPropD_respObj_data,
    getPropD_respObj_headers, truthy]
  rw [hav]

/-- Witness for C7's amended claim at the concrete throttled response (which
carries a `Retry-After: 45` header that is ignored). -/
theorem C7_witness :
    parseError avRateErrObj
      = .ok { type := .rate_limit,
              message := "API rate limit exceeded. Please wait before making another request.",
              retryAfter := some 60, canRetry := true,
              statusCode := some (.num 200),
              originalError := avRateErrObj } :=
  C7_av_marker_fixed_delay (.num 200) avNoteData (.obj [("retry-after", .str "45")])
    "Thank you! Our standard API call frequency is 25 requests per day."
    rfl rfl (by decide)

/-! ### C9 -/

def isStrV : JSValue → Bool
  | .str _ => true
  | _ => false

/-- A value on which `x && x.includes(y)` cannot throw: falsy, or a string. -/
def strOrFalsy (v : JSValue) : Bool := !truthy v || isStrV v

/-- A value on which `x?.includes(y)` cannot throw: nullish, or a string. -/
def nullishOrStr : JSValue → Bool
  | .null => true
  | .undefined => true
  | .str _ => true
  | _ => false

/-- The inputs on which `parseError` provably performs no throwing property
access or method call, read off the code's access pattern: the error is not
nullish; when `response` is truthy, the body's `Note` and `Error Message`
are strings or falsy and, for a 429 status, `headers` is not nullish; when
`response` is falsy and `code` is none of the three network codes,
`message` is nullish or a string. -/
def classifySafe (error : JSValue) : Bool :=
  match error with
  | .null => false
  | .undefined => false
  | _ =>
    let resp := getPropD error "response"
    if truthy resp then
      let data := getPropD resp "data"
      let avOK :=
        if truthy data && isObjV data then
          strOrFalsy (getPropD data "Note") && strOrFalsy (getPropD data "Error Message")
        else true
      let headersOK :=
        if jsEqNum (getPropD resp "status") 429 then
          !(isNullish (getPropD resp "headers"))
        else true
      avOK && headersOK
    else
      let code := getPropD error "code"
      if (jsEqStr code "ENOTFOUND" || jsEqStr code "ECONNREFUSED")
          || jsEqStr code "ECONNABORTED" then true
      else nullishOrStr (getPropD error "message")

theorem chkStep_isOk (v : JSValue) (needle : String) (h : strOrFalsy v = true) :
    ∃ b, chkStep v needle = Except.ok b := by
  cases v with
  | null => exact ⟨false, rfl⟩
  | undefined => exact ⟨false, rfl⟩
  | bool b =>
    simp [strOrFalsy, truthy, isStrV] at h
    exact ⟨false, by simp [chkStep, truthy, h]⟩
  | num n =>
    simp [strOrFalsy, truthy, isStrV] at h
    exact ⟨false, by simp [chkStep, truthy, h]⟩
  | str s =>
    by_cases hs : s = ""
    · exact ⟨false, by simp [chkStep, truthy, hs]⟩
    · exact ⟨strContains s needle, by simp [chkStep, truthy, hs, jsIncludes]⟩
  | obj fields => simp [strOrFalsy, truthy, isStrV] at h

theorem alphaVantageCheck_isOk (err status data : JSValue)
    (h : (if truthy data && isObjV data then
        strOrFalsy (getPropD data "Note") && strOrFalsy (getPropD data "Error Message")
      else true) = true) :
    ∃ r, alphaVantageCheck err status data = Except.ok r := by
  by_cases hC : (truthy data && isObjV data) = true
  · rw [if_pos hC] at h
    rw [Bool.and_eq_true] at h
    obtain ⟨h1, h2⟩ := h
    obtain ⟨b1, hb1⟩ := chkStep_isOk (getPropD data "Note") "API call frequency" h1
    obtain ⟨b2, hb2⟩ := chkStep_isOk (getPropD data "Note") "premium" h1
    obtain ⟨b3, hb3⟩ := chkStep_isOk (getPropD data "Error Message") "Invalid API call" h2
    simp only [alphaVantageCheck]
    rw [if_pos hC, hb1]
    cases b1 with
    | true => exact ⟨_, rfl⟩
    | false =>
      rw [hb2]
      cases b2 with
      | true => exact ⟨_, rfl⟩
      | false =>
        rw [hb3]
        cases b3 with
        | true => exact ⟨_, rfl⟩
        | false => exact ⟨none, rfl⟩
  · refine ⟨none, ?_⟩
    simp only [alphaVantageCheck]
    rw [if_neg hC]

/-- Counterexample to C9 as stated: `parseError(null)` raises a `TypeError`
(reading `.response` of `null`) instead of returning an `ApiError`. -/
theorem C9_counterexample : (parseError JSValue.null).isOk = false := rfl

/-- C9 amended: `parseError` returns an `ApiError` for every input whose
property accesses and string-method calls are defined (`classifySafe`) -
in particular for every object, however bare, with a falsy `response` and a
nullish-or-string `message` - but it is NOT total: on `null` and
`undefined` the very first property access throws a `TypeError`, which
escapes `parseError` itself. -/
theorem C9_classify_totality :
    (∀ e, classifySafe e = true → (parseError e).isOk = true) ∧
    (parseError JSValue.undefined).isOk = false := by
  refine ⟨?_, rfl⟩
  intro e h
  cases e with
  | null => simp [classifySafe] at h
  | undefined => simp [classifySafe] at h
  | bool b => rfl
  | num n => rfl
  | str s => rfl
  | obj fields =>
    simp only [classifySafe] at h
    simp only [parseError]
    by_cases hresp : truthy (getPropD (JSValue.obj fields) "response") = true
    · rw [if_pos hresp] at h
      rw [Bool.and_eq_true] at h
      obtain ⟨h1, h2⟩ := h
      obtain ⟨r, hr⟩ := alphaVantageCheck_isOk (JSValue.obj fields)
        (getPropD (getPropD (JSValue.obj fields) "response") "status")
        (getPropD (getPropD (JSValue.obj fields) "response") "data") h1
      rw [if_pos hresp]
      split
      · next u heq =>
        rw [hr] at heq
        simp at heq
      · next a heq => rfl
      · next heq =>
        by_cases h429 : jsEqNum (getPropD (getPropD (JSValue.obj fields) "response")
            "status") 429 = true
        · rw [if_pos h429] at h2
          have hh : isNullish (getPropD (getPropD (JSValue.obj fields) "response")
              "headers") = false := by simpa using h2
          rw [if_pos h429]
          simp [hh, Except.isOk, Except.toBool]
        · rw [if_neg h429]
          split
          · rfl
          · split
            · rfl
            · rfl
    · rw [if_neg hresp] at h
      rw [if_neg hresp]
      cases hc1 : (jsEqStr (getPropD (JSValue.obj fields) "code") "ENOTFOUND"
          || jsEqStr (getPropD (JSValue.obj fields) "code") "ECONNREFUSED") with
      | true => rfl
      | false =>
        cases hc2 : jsEqStr (getPropD (JSValue.obj fields) "code") "ECONNABORTED" with
        | true => rfl
        | false =>
          simp only [hc1, hc2, Bool.false_or, Bool.or_false, if_false,
            Bool.false_eq_true] at h
          generalize hm : getPropD (JSValue.obj fields) "message" = msg at h ⊢
          cases msg with
          | null => rfl
          | undefined => rfl
          | str s =>
            cases hb : strContains s "timeout" with
            | true => simp [hb, Except.isOk, Except.toBool]
            | false => simp [hb, Except.isOk, Except.toBool, truthy]
          | bool b => simp [nullishOrStr] at h
          | num n => simp [nullishOrStr] at h
          | obj fs => simp [nullishOrStr] at h

/-- Witness for C9's amended claim: the empty object (no `response`, `code`
or `message` property) classifies safely and yields an `ApiError`. -/
theorem C9_witness :
    classifySafe (JSValue.obj []) = true ∧ (parseError (JSValue.obj [])).isOk = true :=
  ⟨rfl, C9_classify_totality.1 (JSValue.obj []) rfl⟩

end FinDash
